import Mathlib

/-!
Shallow embedding of the PyLeagueV2 crawler (src/fetch.py, src/database.py,
src/treatment.py, src/main.py) and proofs about its specification claims.

Timestamps (`DateTime`, `func.now()`, epoch fields) are modelled as `Nat`
(seconds); the database is modelled as in-memory lists of rows, with SQL
queries translated clause by clause.  Fallible Python code is modelled with
`Except String` / `Option`, and a Python `AttributeError` on a missing
attribute is modelled explicitly where the source reads attributes that are
never assigned.
-/

namespace PyLeague

/-! ## Data model (database.py ORM rows) -/

/-- Row of the `players` table (class `Player` in database.py).  Only the
columns the crawler reads or writes are modelled; `id` is positional. -/
structure Player where
  puuid : String
  summonerId : String
  gameName : String
  tagLine : String
  summonerLevel : Nat
  profileIconId : Nat
  lastMatchFetch : Nat
  region : String
deriving Repr, DecidableEq

/-- Column default of `Player.lastMatchFetch`: the epoch second of
"2024-05-1 00:00:01" (UTC). -/
def defaultLastFetch : Nat := 1714521601

/-- Row of the `ratings` table (class `Rating` in database.py). -/
structure RatingRow where
  tier : String
  rank : String
  summonerId : String
  leaguePoints : Nat
  wins : Nat
  losses : Nat
  region : String
  fetchTime : Nat
deriving Repr, DecidableEq

/-- Row of the `matches` table (class `Match`), as produced by
`get_match_info` in treatment.py. -/
structure MatchInfo where
  gameVersion : String
  matchId : String
  matchStart : Nat
  matchDuration : Nat
  matchWinner : Bool
  matchSurrender : Bool
  matchRemake : Bool
deriving Repr, DecidableEq

/-! ## treatment.py payload shapes

The raw JSON match payload is modelled as a typed structure carrying exactly
the fields treatment.py reads.  Nested perk lists (`perks.statPerks`,
`perks.styles[0].selections[0..3]`, `perks.styles[1].selections[0..1]`) are
modelled as a fixed-shape record, i.e. payloads are assumed well-shaped in
the perk tree; `teams` and `participants` stay genuine lists because the
source indexes them at 0 on lists of variable length. -/

structure Perks where
  defense : Nat
  flex : Nat
  offense : Nat
  runeTree : Nat
  main0 : Nat
  main1 : Nat
  main2 : Nat
  main3 : Nat
  subTree : Nat
  sub1 : Nat
  sub2 : Nat
deriving Repr, DecidableEq

structure ParticipantData where
  puuid : String
  summonerId : String
  riotIdGameName : String
  riotIdTagline : String
  profileIcon : Nat
  summonerLevel : Nat
  championId : Nat
  kills : Nat
  deaths : Nat
  assists : Nat
  goldEarned : Nat
  goldSpent : Nat
  totalDamageDealtToChampions : Nat
  item0 : Nat
  item1 : Nat
  item2 : Nat
  item3 : Nat
  item4 : Nat
  item5 : Nat
  item6 : Nat
  perks : Perks
  summoner1Id : Nat
  summoner2Id : Nat
  neutralMinionsKilled : Nat
  totalMinionsKilled : Nat
  visionScore : Nat
  controlWardsPlaced : Nat
  wardsPlaced : Nat
  wardsKilled : Nat
  teamPosition : String
  teamId : Nat
  gameEndedInSurrender : Bool
  gameEndedInEarlySurrender : Bool
deriving Repr, DecidableEq

structure TeamData where
  win : Bool
deriving Repr, DecidableEq

/-- A raw match payload: the fields of `data["metadata"]` and `data["info"]`
that treatment.py reads. -/
structure MatchPayload where
  matchId : String
  endOfGameResult : String
  gameVersion : String
  gameCreation : Nat
  gameDuration : Nat
  platformId : String
  teams : List TeamData
  participants : List ParticipantData
deriving Repr, DecidableEq

/-- The player dictionary built by `get_player_info` (treatment.py) and
consumed by `update_player_if_exists` / `insert_player_list`. -/
structure PlayerObs where
  puuid : String
  summonerId : String
  gameName : String
  tagLine : String
  profileIconId : Nat
  summonerLevel : Nat
  region : String
deriving Repr, DecidableEq

/-- The stats dictionary built by `get_player_stats` (treatment.py).
`playerId`/`matchId` keep their external string form; the resolution to
internal integer keys done by `insert_stats_list` is not modelled.
`csPerMin` is the exact value of the Python float division. -/
structure PlayerStats where
  playerId : String
  matchId : String
  championId : Nat
  kills : Nat
  deaths : Nat
  assists : Nat
  goldEarned : Nat
  goldSpent : Nat
  totalDamage : Nat
  item0 : Nat
  item1 : Nat
  item2 : Nat
  item3 : Nat
  item4 : Nat
  item5 : Nat
  item6 : Nat
  defense : Nat
  flex : Nat
  offense : Nat
  runeTree : Nat
  main0 : Nat
  main1 : Nat
  main2 : Nat
  main3 : Nat
  subTree : Nat
  sub1 : Nat
  sub2 : Nat
  spell1 : Nat
  spell2 : Nat
  neutralMinionsKilled : Nat
  totalMinionsKilled : Nat
  totalCs : Nat
  csPerMin : ℚ
  visionScore : Nat
  controlWardsPlaced : Nat
  wardsPlaced : Nat
  wardsKilled : Nat
  teamPosition : String
  team : Bool
deriving Repr, DecidableEq

/-! ## treatment.py functions -/

/-- `get_match_info(data)` from treatment.py: if
`data["info"]["endOfGameResult"] != "Abort_Unexpected"` it builds the match
row (reading `teams[0]` and `participants[0]`, which raises `IndexError` on
empty lists); otherwise it returns `None`.  `matchStart` models
`fromtimestamp(gameCreation / 1000)` at second precision. -/
def get_match_info (data : MatchPayload) : Except String (Option MatchInfo) :=
  if data.endOfGameResult ≠ "Abort_Unexpected" then
    match data.teams.head?, data.participants.head? with
    | some t0, some p0 =>
      .ok (some
        { gameVersion := data.gameVersion
          matchId := data.matchId
          matchStart := data.gameCreation / 1000
          matchDuration := data.gameDuration
          matchWinner := !t0.win
          matchSurrender := p0.gameEndedInSurrender
          matchRemake := p0.gameEndedInEarlySurrender })
    | _, _ => .error "IndexError"
  else
    .ok none

/-- `get_player_info(data)` from treatment.py: one identity dictionary per
participant, with `region` taken from `data["info"]["platformId"]`. -/
def get_player_info (data : MatchPayload) : List PlayerObs :=
  data.participants.map fun participant =>
    { puuid := participant.puuid
      summonerId := participant.summonerId
      gameName := participant.riotIdGameName
      tagLine := participant.riotIdTagline
      profileIconId := participant.profileIcon
      summonerLevel := participant.summonerLevel
      region := data.platformId }

/-- The stats dictionary for one participant, as built inside the loop of
`get_player_stats`.  The Python expression
`(tm + nm) / (int(gameDuration) / 60)` is true division: the divisor
`gameDuration / 60` is exactly `0` when `gameDuration = 0`, and dividing by
it then raises `ZeroDivisionError` (re-raised by the function's wrapper
`except` as a generic `Exception`; the error string here keeps the root
cause). -/
def participant_stats (matchId : String) (gameDuration : Nat)
    (p : ParticipantData) : Except String PlayerStats :=
  if (gameDuration : ℚ) / 60 = 0 then .error "ZeroDivisionError"
  else
    .ok
      { playerId := p.puuid
        matchId := matchId
        championId := p.championId
        kills := p.kills
        deaths := p.deaths
        assists := p.assists
        goldEarned := p.goldEarned
        goldSpent := p.goldSpent
        totalDamage := p.totalDamageDealtToChampions
        item0 := p.item0
        item1 := p.item1
        item2 := p.item2
        item3 := p.item3
        item4 := p.item4
        item5 := p.item5
        item6 := p.item6
        defense := p.perks.defense
        flex := p.perks.flex
        offense := p.perks.offense
        runeTree := p.perks.runeTree
        main0 := p.perks.main0
        main1 := p.perks.main1
        main2 := p.perks.main2
        main3 := p.perks.main3
        subTree := p.perks.subTree
        sub1 := p.perks.sub1
        sub2 := p.perks.sub2
        spell1 := p.summoner1Id
        spell2 := p.summoner2Id
        neutralMinionsKilled := p.neutralMinionsKilled
        totalMinionsKilled := p.totalMinionsKilled
        totalCs := p.totalMinionsKilled + p.neutralMinionsKilled
        csPerMin := ((p.totalMinionsKilled : ℚ) + (p.neutralMinionsKilled : ℚ))
          / ((gameDuration : ℚ) / 60)
        visionScore := p.visionScore
        controlWardsPlaced := p.controlWardsPlaced
        wardsPlaced := p.wardsPlaced
        wardsKilled := p.wardsKilled
        teamPosition := p.teamPosition
        team := p.teamId == 200 }

/-- The participant loop of `get_player_stats`: the first raising
participant aborts the whole call. -/
def get_player_stats_loop (matchId : String) (gameDuration : Nat) :
    List ParticipantData → Except String (List PlayerStats)
  | [] => .ok []
  | p :: ps =>
    match participant_stats matchId gameDuration p with
    | .error e => .error e
    | .ok s =>
      match get_player_stats_loop matchId gameDuration ps with
      | .error e => .error e
      | .ok rest => .ok (s :: rest)

/-- `get_player_stats(data)` from treatment.py. -/
def get_player_stats (data : MatchPayload) : Except String (List PlayerStats) :=
  get_player_stats_loop data.matchId data.gameDuration data.participants

/-! ## database.py query functions -/

/-- `ORDER BY lastMatchFetch ASC ... first()`: the earliest row, keeping the
earlier row on ties (stable order). -/
def argminCursor : List Player → Option Player
  | [] => none
  | p :: ps =>
    match argminCursor ps with
    | none => some p
    | some q => if p.lastMatchFetch ≤ q.lastMatchFetch then some p else some q

/-- The `{"puuid": ..., "lastFetch": ...}` dictionary returned by
`get_next_to_fetch`. -/
structure NextFetch where
  puuid : String
  lastFetch : Nat
deriving Repr, DecidableEq

/-- `get_next_to_fetch(regions)` from database.py:
`query(Player).order_by(Player.lastMatchFetch).filter(Player.region.in_(regions)).first()`,
returning the puuid/cursor dictionary or `None`. -/
def get_next_to_fetch (regions : List String) (db : List Player) : Option NextFetch :=
  (argminCursor (db.filter fun p => decide (p.region ∈ regions))).map
    fun p => ⟨p.puuid, p.lastMatchFetch⟩

/-- Apply `f` to the first row matching `puuid` (`filter(...).first()`
followed by mutating that row and a commit). -/
def updateFirst (puuid : String) (f : Player → Player) : List Player → List Player
  | [] => []
  | p :: ps => if p.puuid == puuid then f p :: ps else p :: updateFirst puuid f ps

/-- `update_last_fetch(puuid)` from database.py: sets the row's
`lastMatchFetch` to `func.now()`, passed here as `now`. -/
def update_last_fetch (db : List Player) (puuid : String) (now : Nat) : List Player :=
  updateFirst puuid (fun p => { p with lastMatchFetch := now }) db

/-- The field refresh done inside `update_player_if_exists` when its guard
`player_exists.lastMatchFetch > matchDate` holds. -/
def refreshPlayer (obs : PlayerObs) (matchDate : Nat) (p : Player) : Player :=
  { p with
      summonerId := obs.summonerId
      gameName := obs.gameName
      tagLine := obs.tagLine
      summonerLevel := obs.summonerLevel
      profileIconId := obs.profileIconId
      lastMatchFetch := matchDate
      region := obs.region }

/-- `update_player_if_exists(player, matchDate)` from database.py: `None`
when no row has the puuid; otherwise, when the stored
`lastMatchFetch > matchDate`, it overwrites the display fields from the
observation and sets `lastMatchFetch := matchDate`, and it returns `True`
in either case.  Result: the database after the call and the return value
(`none` for Python `None`, `some true` for `True`). -/
def update_player_if_exists (db : List Player) (obs : PlayerObs) (matchDate : Nat) :
    List Player × Option Bool :=
  match db.find? (fun p => p.puuid == obs.puuid) with
  | none => (db, none)
  | some _ =>
    (updateFirst obs.puuid
      (fun p => if matchDate < p.lastMatchFetch then refreshPlayer obs matchDate p else p) db,
     some true)

/-- `match_on_db(match_id)` from database.py. -/
def match_on_db (matchRows : List MatchInfo) (matchId : String) : Bool :=
  matchRows.any fun m => m.matchId == matchId

/-! ## database.py rating deduplication -/

/-- The treated rating dictionary built by `get_rating_list`
(treatment.py). -/
structure TreatedRating where
  tier : String
  rank : String
  wins : Nat
  losses : Nat
  leaguePoints : Nat
  summonerId : String
  region : String
deriving Repr, DecidableEq

/-- A raw entry of a rank page response, as read by `get_rating_list` in
the non-high-rank path. -/
structure ApiRatingEntry where
  tier : String
  rank : String
  wins : Nat
  losses : Nat
  leaguePoints : Nat
  summonerId : String
deriving Repr, DecidableEq

/-- `ORDER BY fetchTime ASC ... first()`: the row with the smallest
`fetchTime`, keeping the earlier row on ties. -/
def firstByFetchTime : List RatingRow → Option RatingRow
  | [] => none
  | r :: rs =>
    match firstByFetchTime rs with
    | none => some r
    | some q => if r.fetchTime ≤ q.fetchTime then some r else some q

/-- `rating_up_to_date(rating)` from database.py:
`query(Rating).filter(Rating.summonerId == ...).order_by(Rating.fetchTime).first()`
— the ascending order means the comparison row is the EARLIEST stored
snapshot for the summoner — then `True` iff its league points, wins and
losses all equal the incoming rating's. -/
def rating_up_to_date (db : List RatingRow) (rating : TreatedRating) : Bool :=
  match firstByFetchTime (db.filter fun row => row.summonerId == rating.summonerId) with
  | some last_rating =>
    last_rating.leaguePoints == rating.leaguePoints &&
      last_rating.wins == rating.wins && last_rating.losses == rating.losses
  | none => false

/-- The loop of `get_rating_list(rating_response, region)` (treatment.py,
non-high-rank path): build each treated rating and keep it only when
`rating_up_to_date` is false.  The database is not modified during the
page; insertion happens afterwards. -/
def get_rating_list (db : List RatingRow) (region : String) :
    List ApiRatingEntry → List TreatedRating
  | [] => []
  | r :: rs =>
    let new_rating : TreatedRating :=
      ⟨r.tier, r.rank, r.wins, r.losses, r.leaguePoints, r.summonerId, region⟩
    if rating_up_to_date db new_rating then get_rating_list db region rs
    else new_rating :: get_rating_list db region rs

/-- `insert_player_rating_list` (database.py): bulk insert of the treated
ratings; `fetchTime` takes its column default `func.now()`, the single
insertion time `now`. -/
def insert_player_rating_list (db : List RatingRow) (ratings : List TreatedRating)
    (now : Nat) : List RatingRow :=
  db ++ ratings.map fun r =>
    ⟨r.tier, r.rank, r.summonerId, r.leaguePoints, r.wins, r.losses, r.region, now⟩

/-! ## fetch.py: BaseFetcher.fetch

`BaseFetcher.__init__` assigns `api_key`, `retry_timer = 0`,
`retry_count = 0` and `session`.  The `fetch` loop reads two attributes
that are never assigned on `BaseFetcher`: the 429 branch formats a log
message with `self.region`, and the other non-200 branches read
`self.retry_counter` (both in the guard and in the increment).  In Python
each of those reads raises `AttributeError`, which propagates out of
`fetch`; the model makes those paths explicit. -/

structure HttpResponse where
  status : Nat
  retryAfter : Option Nat
  body : String
deriving Repr, DecidableEq

inductive FetchOutcome where
  | ok (body : String)
  | attributeError (attr : String)
  | outOfScript
deriving Repr, DecidableEq

/-- Observable result of one `fetch` call: the outcome, every duration
passed to `time.sleep` in order, and the final values of the instance
attributes `retry_timer` and `retry_count`. -/
structure FetchTrace where
  outcome : FetchOutcome
  sleeps : List Nat
  retryTimer : Nat
  retryCount : Nat
deriving Repr, DecidableEq

/-- The `while True` loop of `BaseFetcher.fetch`, run against a script of
responses (one response per `session.get`); an exhausted script ends the
model run with `outOfScript`. -/
def fetchLoop (retryTimer retryCount : Nat) (sleeps : List Nat) :
    List HttpResponse → FetchTrace
  | [] => ⟨.outOfScript, sleeps, retryTimer, retryCount⟩
  | r :: _ =>
    let sleeps := if retryTimer > 0 then sleeps ++ [retryTimer] else sleeps
    let retryTimer := 0
    if r.status == 200 then ⟨.ok r.body, sleeps, retryTimer, 0⟩
    else if r.status == 429 then
      let retryTimer := r.retryAfter.getD 1
      ⟨.attributeError "region", sleeps, retryTimer, retryCount⟩
    else
      ⟨.attributeError "retry_counter", sleeps, retryTimer, retryCount⟩

/-- One call of `BaseFetcher.fetch` on a fresh instance
(`retry_timer = 0`, `retry_count = 0`). -/
def fetch (responses : List HttpResponse) : FetchTrace :=
  fetchLoop 0 0 [] responses

/-! ## main.py: match list pagination -/

/-- The query parameters of one `get_match_list` request (fetch.py):
`startTime` is `int(start_date.timestamp())`, `start` the offset,
`count=100` is fixed in the URL. -/
structure MatchListRequest where
  puuid : String
  startTime : Nat
  start : Nat
  count : Nat
deriving Repr, DecidableEq

/-- The inner `while True` of `main_region_fetching` (main.py lines
150-164): request a page at the current offset, extend the accumulated
list, and advance the offset by 100 only when the page has exactly 100
ids, else stop.  The script lists the response at offset `0, 100, 200, …`
in order; an exhausted script stops the model run.  Returns the
accumulated ids and the requests issued. -/
def fetch_match_list_loop (puuid : String) (lastFetch : Nat) (startValue : Nat) :
    List (List String) → List String × List MatchListRequest
  | [] => ([], [])
  | page :: rest =>
    let req : MatchListRequest := ⟨puuid, lastFetch, startValue, 100⟩
    if page.length == 100 then
      let next := fetch_match_list_loop puuid lastFetch (startValue + 100) rest
      (page ++ next.1, req :: next.2)
    else
      (page, [req])

/-- The full pagination for one player: offset starts at 0 and the
player's cursor is the lower time bound of every request. -/
def fetch_match_list (puuid : String) (lastFetch : Nat)
    (pages : List (List String)) : List String × List MatchListRequest :=
  fetch_match_list_loop puuid lastFetch 0 pages

/-! ## main.py: match processing and the crawler loop -/

/-- The persistent store as seen by one `main_region_fetching` worker. -/
structure DB where
  players : List Player
  matchRows : List MatchInfo
  stats : List PlayerStats
deriving Repr, DecidableEq

/-- A fresh `players` row inserted by `insert_player_list` for an
observation that was not already stored: `lastMatchFetch` takes its
column default. -/
def newPlayer (obs : PlayerObs) : Player :=
  { puuid := obs.puuid
    summonerId := obs.summonerId
    gameName := obs.gameName
    tagLine := obs.tagLine
    summonerLevel := obs.summonerLevel
    profileIconId := obs.profileIconId
    lastMatchFetch := defaultLastFetch
    region := obs.region }

/-- The batch-building loop of main.py lines 181-188: call
`update_player_if_exists` for each observation (threading the store, since
each call commits), drop the observation when the call returns `True`,
keep it for `insert_player_list` otherwise.  Returns the player table
after the loop and the batch `new_p_info`. -/
def buildBatch (players : List Player) (matchDate : Nat) :
    List PlayerObs → List Player × List PlayerObs
  | [] => (players, [])
  | obs :: rest =>
    let step := update_player_if_exists players obs matchDate
    let next := buildBatch step.1 matchDate rest
    if step.2 == some true then next else (next.1, obs :: next.2)

/-- Processing of one match id (main.py lines 167-192): skip if already
stored; fetch the match data (`fetchData` scripts `get_match_data`,
errors modelling `FetchError`); transform; skip aborted games; build the
player batch; then insert players, the match row and the stats rows, in
that order. -/
def processMatch (db : DB) (fetchData : String → Except String MatchPayload)
    (matchId : String) : Except String DB :=
  if match_on_db db.matchRows matchId then .ok db
  else
    match fetchData matchId with
    | .error e => .error e
    | .ok matchData =>
      match get_match_info matchData with
      | .error e => .error e
      | .ok none => .ok db
      | .ok (some m_info) =>
        let p_info := get_player_info matchData
        match get_player_stats matchData with
        | .error e => .error e
        | .ok p_stats =>
          let batch := buildBatch db.players m_info.matchStart p_info
          .ok
            { players := batch.1 ++ batch.2.map newPlayer
              matchRows := db.matchRows ++ [m_info]
              stats := db.stats ++ p_stats }

/-- The `for match in match_list` loop: each successfully processed match
is committed; the first error aborts the loop, leaving the commits made so
far and surfacing the error. -/
def processMatchList (fetchData : String → Except String MatchPayload) :
    List String → DB → DB × Option String
  | [], db => (db, none)
  | matchId :: rest, db =>
    match processMatch db fetchData matchId with
    | .ok db' => processMatchList fetchData rest db'
    | .error e => (db, some e)

/-- The external inputs of one iteration of the outer `while True` of
`main_region_fetching`: the scripted `get_match_data` responses, the
scripted match-list pages, and the value of `func.now()` at the final
`update_last_fetch`. -/
structure IterScript where
  fetchData : String → Except String MatchPayload
  pages : List (List String)
  now : Nat

/-- One iteration of the outer loop (main.py lines 146-194): select the
next player (`None` makes the subsequent `next_player["puuid"]` raise
`TypeError`), page through the match list, process every match, and only
when no error occurred advance the player's cursor with
`update_last_fetch`.  An error is returned alongside the store it left
behind. -/
def crawlerIteration (regions : List String) (it : IterScript) (db : DB) :
    DB × Option String :=
  match get_next_to_fetch regions db.players with
  | none => (db, some "TypeError")
  | some next_player =>
    let match_list := (fetch_match_list next_player.puuid next_player.lastFetch it.pages).1
    match processMatchList it.fetchData match_list db with
    | (db', none) =>
      ({ db' with players := update_last_fetch db'.players next_player.puuid it.now }, none)
    | (db', some e) => (db', some e)

/-- The worker `main_region_fetching`: its `try` block wraps the whole
`while True`, and the `except` at function level only prints — so the
first error that escapes an iteration terminates the worker; remaining
scripted iterations never run. -/
def runCrawler (regions : List String) : List IterScript → DB → DB × Option String
  | [], db => (db, none)
  | it :: its, db =>
    match crawlerIteration regions it db with
    | (db', none) => runCrawler regions its db'
    | (db', some e) => (db', some e)

/-! ## Concrete instances used by the evaluation and witness theorems -/

/-- A stored player whose cursor (2000) is newer than the incoming match
date used below (1000). -/
def pStale : Player :=
  { puuid := "p1", summonerId := "sOld", gameName := "OldName", tagLine := "OLD",
    summonerLevel := 10, profileIconId := 1, lastMatchFetch := 2000, region := "na1" }

/-- A participant observation for the same puuid with fresh display fields. -/
def obsNew : PlayerObs :=
  { puuid := "p1", summonerId := "sNew", gameName := "NewName", tagLine := "NEW",
    profileIconId := 2, summonerLevel := 20, region := "br1" }

def entryLP10 : ApiRatingEntry := ⟨"GOLD", "I", 1, 1, 10, "S1"⟩

def entryLP20 : ApiRatingEntry := ⟨"GOLD", "I", 2, 1, 20, "S1"⟩

/-- Ratings store after one ladder pass sees `entryLP10` at time 1. -/
def ratingDb1 : List RatingRow :=
  insert_player_rating_list [] (get_rating_list [] "na1" [entryLP10]) 1

/-- ... then `entryLP20` at time 2. -/
def ratingDb2 : List RatingRow :=
  insert_player_rating_list ratingDb1 (get_rating_list ratingDb1 "na1" [entryLP20]) 2

/-- ... then the unchanged `entryLP20` again at time 3. -/
def ratingDb3 : List RatingRow :=
  insert_player_rating_list ratingDb2 (get_rating_list ratingDb2 "na1" [entryLP20]) 3

def resp429 : HttpResponse := ⟨429, some 5, ""⟩

def resp429NoHeader : HttpResponse := ⟨429, none, ""⟩

def resp200 : HttpResponse := ⟨200, none, "payload"⟩

def resp500 : HttpResponse := ⟨500, none, ""⟩

def pT1 : Player :=
  { puuid := "a1", summonerId := "s1", gameName := "A", tagLine := "AAA",
    summonerLevel := 1, profileIconId := 1, lastMatchFetch := 1, region := "na1" }

def pT2 : Player :=
  { puuid := "b2", summonerId := "s2", gameName := "B", tagLine := "BBB",
    summonerLevel := 2, profileIconId := 2, lastMatchFetch := 2, region := "na1" }

def perksBlank : Perks := ⟨0, 0, 0, 0, 0, 0, 0, 0, 0, 0, 0⟩

def partNew : ParticipantData :=
  { puuid := "newp", summonerId := "nsid", riotIdGameName := "New",
    riotIdTagline := "NEW", profileIcon := 4, summonerLevel := 40, championId := 7,
    kills := 1, deaths := 2, assists := 3, goldEarned := 1000, goldSpent := 900,
    totalDamageDealtToChampions := 5000, item0 := 0, item1 := 0, item2 := 0,
    item3 := 0, item4 := 0, item5 := 0, item6 := 0, perks := perksBlank,
    summoner1Id := 4, summoner2Id := 12, neutralMinionsKilled := 10,
    totalMinionsKilled := 50, visionScore := 20, controlWardsPlaced := 2,
    wardsPlaced := 8, wardsKilled := 3, teamPosition := "TOP", teamId := 200,
    gameEndedInSurrender := false, gameEndedInEarlySurrender := false }

/-- A completed match payload starting at epoch second 55 with one new
participant. -/
def payloadGood : MatchPayload :=
  { matchId := "m1", endOfGameResult := "GameComplete", gameVersion := "14.9",
    gameCreation := 55000, gameDuration := 60, platformId := "br1",
    teams := [⟨true⟩, ⟨false⟩], participants := [partNew] }

/-- An aborted match payload. -/
def payloadAborted : MatchPayload :=
  { matchId := "m2", endOfGameResult := "Abort_Unexpected", gameVersion := "14.9",
    gameCreation := 0, gameDuration := 0, platformId := "br1",
    teams := [], participants := [] }

/-- A completed payload whose `gameDuration` is 0. -/
def payloadZeroDur : MatchPayload :=
  { matchId := "m3", endOfGameResult := "GameComplete", gameVersion := "14.9",
    gameCreation := 1000, gameDuration := 0, platformId := "br1",
    teams := [⟨true⟩, ⟨false⟩], participants := [partNew] }

def pSel : Player :=
  { puuid := "sel", summonerId := "sid", gameName := "Sel", tagLine := "SEL",
    summonerLevel := 30, profileIconId := 3, lastMatchFetch := 50, region := "na1" }

def dbC6 : DB := ⟨[pSel], [], []⟩

def dbEmpty : DB := ⟨[], [], []⟩

def fetchAborted : String → Except String MatchPayload := fun _ => .ok payloadAborted

/-- An iteration whose `get_match_data` call fails. -/
def itFail : IterScript := ⟨fun _ => .error "FetchError", [["m1"]], 100⟩

/-- An iteration whose `get_match_data` call succeeds with `payloadGood`. -/
def itRetry : IterScript := ⟨fun _ => .ok payloadGood, [["m1"]], 100⟩

/-! ## Helper lemmas -/

theorem argminCursor_eq_none {l : List Player} : argminCursor l = none ↔ l = [] := by
  cases l with
  | nil => simp [argminCursor]
  | cons p ps =>
    simp only [argminCursor]
    constructor
    · intro h
      cases hq : argminCursor ps with
      | none => rw [hq] at h; simp at h
      | some q => rw [hq] at h; dsimp at h; split at h <;> simp at h
    · intro h; exact absurd h (by simp)

theorem argminCursor_mem : ∀ {l : List Player} {p : Player},
    argminCursor l = some p → p ∈ l := by
  intro l
  induction l with
  | nil => intro p h; simp [argminCursor] at h
  | cons q qs ih =>
    intro p h
    simp only [argminCursor] at h
    cases hq : argminCursor qs with
    | none => rw [hq] at h; simp at h; simp [h]
    | some r =>
      rw [hq] at h
      dsimp at h
      split at h
      · simp at h; simp [h]
      · simp at h; exact List.mem_cons_of_mem q (ih (h ▸ hq))

theorem argminCursor_min : ∀ {l : List Player} {p : Player},
    argminCursor l = some p → ∀ q ∈ l, p.lastMatchFetch ≤ q.lastMatchFetch := by
  intro l
  induction l with
  | nil => intro p h; simp [argminCursor] at h
  | cons q qs ih =>
    intro p h x hx
    simp only [argminCursor] at h
    cases hq : argminCursor qs with
    | none =>
      rw [hq] at h
      simp at h
      subst h
      have hqs : qs = [] := argminCursor_eq_none.mp hq
      subst hqs
      rcases List.mem_cons.mp hx with hx | hx
      · subst hx; exact le_refl _
      · simp at hx
    | some r =>
      rw [hq] at h
      dsimp at h
      split at h
      · rename_i hle
        simp at h
        subst h
        rcases List.mem_cons.mp hx with hx | hx
        · subst hx; exact le_refl _
        · exact le_trans hle (ih hq x hx)
      · rename_i hle
        simp at h
        subst h
        rcases List.mem_cons.mp hx with hx | hx
        · subst hx; exact le_of_not_le hle
        · exact ih hq x hx

theorem participant_stats_ok (matchId : String) (g : Nat) (h : g ≠ 0)
    (p : ParticipantData) : ∃ s, participant_stats matchId g p = .ok s :=
  ⟨_, by unfold participant_stats; rw [if_neg (by simp [div_eq_zero_iff, h])]⟩

theorem get_player_stats_loop_ok (matchId : String) (g : Nat) (h : g ≠ 0)
    (l : List ParticipantData) :
    ∃ out, get_player_stats_loop matchId g l = .ok out ∧ out.length = l.length := by
  induction l with
  | nil => exact ⟨[], rfl, rfl⟩
  | cons p ps ih =>
    rcases ih with ⟨out, hout, hlen⟩
    rcases participant_stats_ok matchId g h p with ⟨s, hs⟩
    exact ⟨s :: out, by simp only [get_player_stats_loop, hs, hout], by simp [hlen]⟩

/-! ## Claim theorems -/

/-- C1: the claim states that `Player.lastMatchFetch` never moves backward.
Evaluating `update_player_if_exists` from database.py at a stored player
with cursor 2000 and a match date of 1000 shows the code taking its update
branch (guard `lastMatchFetch > matchDate`) and setting the cursor BACK to
1000: the cursor regresses. -/
theorem C1_cursor_regression_eval :
    pStale.lastMatchFetch = 2000 ∧
    (update_player_if_exists [pStale] obsNew 1000).1.map Player.lastMatchFetch
      = [1000] := by decide

/-- C5: the claim states that a participant observation for an existing
player whose stored cursor is newer than the match start is dropped from
the upsert batch AND leaves the stored display fields unchanged.  The drop
does happen (`update_player_if_exists` returns `True`, so `buildBatch`
keeps nothing), but the display fields are overwritten from the stale
observation: `gameName` flips from "OldName" to "NewName". -/
theorem C5_stale_observation_overwrite_eval :
    (update_player_if_exists [pStale] obsNew 1000).2 = some true ∧
    (buildBatch [pStale] 1000 [obsNew]).2 = [] ∧
    pStale.gameName = "OldName" ∧
    (update_player_if_exists [pStale] obsNew 1000).1.map Player.gameName
      = ["NewName"] := by decide

/-- C2: the claim states that a snapshot is written iff it differs from the
MOST RECENT stored snapshot.  `rating_up_to_date` orders by `fetchTime`
ascending and takes `first()`, i.e. compares with the EARLIEST snapshot:
with history `(LP 10, t=1), (LP 20, t=2)` for summoner "S1", re-inserting
the exact payload of the most recent snapshot is judged not up to date and
stored again, so the same payload ends up stored twice. -/
theorem C2_dedup_compares_oldest_eval :
    ratingDb2.map (fun r => (r.leaguePoints, r.wins, r.losses, r.fetchTime))
      = [(10, 1, 1, 1), (20, 2, 1, 2)] ∧
    rating_up_to_date ratingDb2 ⟨"GOLD", "I", 2, 1, 20, "S1", "na1"⟩ = false ∧
    (ratingDb3.filter fun r =>
      r.leaguePoints == 20 && r.wins == 2 && r.losses == 1).length = 2 := by decide

/-- C3: the claim describes a 429 with `Retry-After: 5` followed by a 200
yielding one 5-unit sleep and the 200 body.  In the source the 429 branch
evaluates a log f-string reading `self.region`, an attribute `BaseFetcher`
never defines, so the call raises `AttributeError` before any sleep (after
recording the backoff, 5, or its default 1 when the header is absent). -/
theorem C3_rate_limit_attribute_error_eval :
    fetch [resp429, resp200] = ⟨.attributeError "region", [], 5, 0⟩ ∧
    fetch [resp429NoHeader, resp200] = ⟨.attributeError "region", [], 1, 0⟩ := by
  decide

/-- C4: the claim describes three consecutive 500s failing with
`FetchError` after the third attempt.  In the source the non-200/429
branches read `self.retry_counter`, which is never assigned (`__init__`
sets `retry_count`), so the FIRST 500 already raises `AttributeError`. -/
theorem C4_retry_attribute_error_eval :
    fetch [resp500, resp500, resp500]
      = ⟨.attributeError "retry_counter", [], 0, 0⟩ := by decide

/-- C7: `get_next_to_fetch` returns `None` exactly when no player is
registered in the queried regions; when it returns a player, that player
is one of the registered players of those regions and its cursor is
minimal among them. -/
theorem C7_next_to_fetch (regions : List String) (db : List Player) :
    (get_next_to_fetch regions db = none ↔ ∀ p ∈ db, p.region ∉ regions) ∧
    (∀ n, get_next_to_fetch regions db = some n →
      ((db.filter fun p => decide (p.region ∈ regions)).any
        fun p => p.puuid == n.puuid && p.lastMatchFetch == n.lastFetch) = true) ∧
    (∀ n q, get_next_to_fetch regions db = some n → q ∈ db → q.region ∈ regions →
      n.lastFetch ≤ q.lastMatchFetch) := by
  refine ⟨?_, ?_, ?_⟩
  · unfold get_next_to_fetch
    rw [Option.map_eq_none', argminCursor_eq_none, List.filter_eq_nil_iff]
    simp
  · intro n hn
    unfold get_next_to_fetch at hn
    rcases Option.map_eq_some'.mp hn with ⟨p, hp, hpn⟩
    have hmem := argminCursor_mem hp
    rw [List.any_eq_true]
    exact ⟨p, hmem, by rw [← hpn]; simp⟩
  · intro n q hn hq hqr
    unfold get_next_to_fetch at hn
    rcases Option.map_eq_some'.mp hn with ⟨p, hp, hpn⟩
    have hqf : q ∈ db.filter fun p => decide (p.region ∈ regions) := by
      rw [List.mem_filter]
      exact ⟨hq, by simpa using hqr⟩
    have := argminCursor_min hp q hqf
    rw [← hpn]
    exact this

/-- C7 witness: with two eligible players of cursors 1 < 2, the returned
player is the cursor-1 player, and its cursor bounds the other's. -/
theorem C7_next_to_fetch_witness :
    get_next_to_fetch ["na1"] [pT1, pT2] = some ⟨"a1", 1⟩ ∧
    (⟨"a1", 1⟩ : NextFetch).lastFetch ≤ pT2.lastMatchFetch :=
  ⟨by decide,
   (C7_next_to_fetch ["na1"] [pT1, pT2]).2.2 ⟨"a1", 1⟩ pT2
    (by decide) (by decide) (by decide)⟩

/-- C8: pagination starts at offset 0 with the player's cursor as the
lower time bound and count 100; after a full page of 100 ids the offset
advances by exactly 100, and a page with fewer than 100 ids stops the loop
(later scripted pages are never requested).  The accumulated list is the
full page followed by the short page. -/
theorem C8_pagination (puuid : String) (cursor : Nat) (p1 p2 : List String)
    (rest : List (List String)) (h1 : p1.length = 100) (h2 : p2.length < 100) :
    fetch_match_list puuid cursor (p1 :: p2 :: rest) =
      (p1 ++ p2, [⟨puuid, cursor, 0, 100⟩, ⟨puuid, cursor, 100, 100⟩]) := by
  have h2' : p2.length ≠ 100 := by omega
  simp [fetch_match_list, fetch_match_list_loop, h1, h2']

/-- C8 witness: a first page of exactly 100 ids followed by an empty page
yields exactly those 100 ids, with requests at offsets 0 and 100 only. -/
theorem C8_pagination_witness :
    fetch_match_list "pu" 7 [List.replicate 100 "m", []] =
      (List.replicate 100 "m" ++ [], [⟨"pu", 7, 0, 100⟩, ⟨"pu", 7, 100, 100⟩]) :=
  C8_pagination "pu" 7 (List.replicate 100 "m") [] [] (by simp) (by simp)

/-- C9: a payload whose `endOfGameResult` is "Abort_Unexpected" is
transformed by `get_match_info` to no match, and processing that match id
leaves the store exactly as it was: no Player, Match or MatchStat row is
persisted. -/
theorem C9_abort_skipped (db : DB) (fetchData : String → Except String MatchPayload)
    (matchId : String) (payload : MatchPayload)
    (hf : fetchData matchId = .ok payload)
    (he : payload.endOfGameResult = "Abort_Unexpected") :
    get_match_info payload = .ok none ∧ processMatch db fetchData matchId = .ok db := by
  have hmi : get_match_info payload = .ok none := by
    unfold get_match_info
    rw [he]
    simp
  refine ⟨hmi, ?_⟩
  by_cases h : match_on_db db.matchRows matchId <;>
    simp [processMatch, h, hf, hmi]

/-- C9 witness: the aborted payload at a concrete store. -/
theorem C9_abort_skipped_witness :
    get_match_info payloadAborted = .ok none ∧
    processMatch dbEmpty fetchAborted "m2" = .ok dbEmpty :=
  C9_abort_skipped dbEmpty fetchAborted "m2" payloadAborted rfl rfl

/-- C10: `get_player_stats` raises (models Python's `ZeroDivisionError`
inside the `csPerMin` computation) for every payload with `gameDuration`
zero and at least one participant, and is total — returning one stats row
per participant — whenever `gameDuration` is nonzero. -/
theorem C10_zero_duration_raises (data : MatchPayload) :
    (data.gameDuration = 0 → data.participants ≠ [] →
      get_player_stats data = .error "ZeroDivisionError") ∧
    (data.gameDuration ≠ 0 →
      ∃ l, get_player_stats data = .ok l ∧ l.length = data.participants.length) := by
  constructor
  · intro h0 hne
    unfold get_player_stats
    rcases hp : data.participants with _ | ⟨p, ps⟩
    · exact absurd hp hne
    · simp only [get_player_stats_loop]
      rw [participant_stats, if_pos (by rw [h0]; norm_num)]
  · intro h0
    unfold get_player_stats
    exact get_player_stats_loop_ok data.matchId data.gameDuration h0 data.participants

/-- C10 witness: a concrete zero-duration payload with one participant. -/
theorem C10_zero_duration_witness :
    get_player_stats payloadZeroDur = .error "ZeroDivisionError" :=
  (C10_zero_duration_raises payloadZeroDur).1 rfl (by decide)

/-- C6 (amended): an error fetching or transforming one match aborts the
remaining match list of that `processMatchList` call — the rest of the
list has no effect — and the iteration's final `update_last_fetch` never
runs, so the selected player's cursor is not advanced; but the error then
escapes the outer `while True` (the worker's `try` wraps the whole loop),
so the worker terminates and the remaining iterations never run. -/
theorem C6_worker_terminates (regions : List String) (it : IterScript)
    (its : List IterScript) (db : DB) (np : NextFetch) (e : String)
    (matchId : String) (ms : List String) (db0 : DB) (e0 : String)
    (hnp : get_next_to_fetch regions db.players = some np)
    (herr : (processMatchList it.fetchData
      (fetch_match_list np.puuid np.lastFetch it.pages).1 db).2 = some e)
    (hm : processMatch db0 it.fetchData matchId = .error e0) :
    runCrawler regions (it :: its) db =
      ((processMatchList it.fetchData
        (fetch_match_list np.puuid np.lastFetch it.pages).1 db).1, some e) ∧
    processMatchList it.fetchData (matchId :: ms) db0 = (db0, some e0) := by
  constructor
  · have hit : crawlerIteration regions it db =
        ((processMatchList it.fetchData
          (fetch_match_list np.puuid np.lastFetch it.pages).1 db).1, some e) := by
      unfold crawlerIteration
      rw [hnp]
      rcases hpl : processMatchList it.fetchData
          (fetch_match_list np.puuid np.lastFetch it.pages).1 db with ⟨db', r⟩
      rw [hpl] at herr
      simp only at herr
      subst herr
      simp [hpl]
    unfold runCrawler
    rw [hit]
  · unfold processMatchList
    rw [hm]

/-- C6 witness: concrete failing first iteration followed by a scripted
second iteration that never runs. -/
theorem C6_worker_terminates_witness :
    runCrawler ["na1"] [itFail, itRetry] dbC6 =
      ((processMatchList itFail.fetchData
        (fetch_match_list "sel" 50 itFail.pages).1 dbC6).1, some "FetchError") ∧
    processMatchList itFail.fetchData ["m1"] dbC6 = (dbC6, some "FetchError") :=
  C6_worker_terminates ["na1"] itFail [itRetry] dbC6 ⟨"sel", 50⟩ "FetchError"
    "m1" [] dbC6 "FetchError" rfl rfl rfl

/-- C6 counterexample: the claim says the crawler's outer loop continues so
that the same player is retried on a later pass.  At this input the first
iteration's match fetch fails: the run stops with the error, the store and
the player's cursor (50) are untouched, appending a would-be retry
iteration changes nothing — while that same retry iteration, had it run,
would have persisted match "m1". -/
theorem C6_counterexample :
    runCrawler ["na1"] [itFail, itRetry] dbC6 = runCrawler ["na1"] [itFail] dbC6 ∧
    runCrawler ["na1"] [itFail, itRetry] dbC6 = (dbC6, some "FetchError") ∧
    dbC6.players.map Player.lastMatchFetch = [50] ∧
    (runCrawler ["na1"] [itRetry] dbC6).1.matchRows.map MatchInfo.matchId = ["m1"] := by
  refine ⟨rfl, rfl, rfl, ?_⟩
  rcases participant_stats_ok "m1" 60 (by norm_num) partNew with ⟨s, hs⟩
  simp [runCrawler, crawlerIteration, itRetry, dbC6, pSel, get_next_to_fetch,
    argminCursor, fetch_match_list, fetch_match_list_loop, processMatchList,
    processMatch, match_on_db, get_match_info, payloadGood, get_player_info,
    get_player_stats, get_player_stats_loop, hs, buildBatch,
    update_player_if_exists, updateFirst, newPlayer, update_last_fetch]

end PyLeague
